import Mathlib

/-!
Shallow embedding of the DocQA document-ingestion pipeline.

The embedding covers:
* `file_processer.py` — the pipeline orchestrator `process_all_files`;
* `vector_database.py` — the indexer entry points `text_db_insetter` and
  `image_db_insetter`;
* the chunker configured in `main.py` (its implementation lives in the
  external langchain library, so it is modelled from the specification).

Python exceptions are modelled as explicit error values; the logger and the
mirroring `print` calls are modelled as a single list of log entries; the
vector store and the per-file processors (whose modules are external
collaborators of the orchestrator) are modelled as oracles recording the
documents they insert and the exception, if any, that they raise.
-/

/-- Severity of a log entry (`logger.error` / `logger.warning` / `logger.info`).
Each `print` in the source mirrors an adjacent logger call, so a single
stream models both. -/
inductive LogLevel
  | error
  | warning
  | info
deriving DecidableEq, Repr

/-- One emitted log line. -/
structure LogEntry where
  level : LogLevel
  msg : String
deriving DecidableEq, Repr

/-- Metadata of a langchain `Document` as built by the insetters in
`vector_database.py`.  The Python metadata dict keys `Source`, `PageNo`,
`Type` and `ImagePath` become the fields `source`, `pageNo`, `docType` and
`imagePath` (`Type` is a reserved word in Lean); `imagePath = none` models
the key being absent from the dict. -/
structure DocMetadata where
  source : String
  pageNo : Int
  docType : String
  imagePath : Option String
deriving DecidableEq, Repr

/-- A langchain `Document`: `page_content` plus metadata. -/
structure Doc where
  page_content : String
  metadata : DocMetadata
deriving DecidableEq, Repr

/-- `os.path.join` on POSIX for the two-argument calls in the source. -/
def osPathJoin (a b : String) : String := a ++ "/" ++ b

/-- `os.path.basename` on POSIX: the part of the path after the last slash
(computed over the character list so that it reduces by evaluation). -/
def osPathBasename (p : String) : String :=
  String.mk (p.data.foldl (fun acc c => if c = '/' then [] else acc ++ [c]) [])

/-- Python `str.lower()` (ASCII case mapping, which covers the extension
comparison the orchestrator performs). -/
def pyLower (s : String) : String := String.mk (s.data.map Char.toLower)

/-- Python `str.endswith(suffix)`, computed over the character lists. -/
def pyEndsWith (s suffix : String) : Bool := suffix.data.isSuffixOf s.data

/-- The configuration surface the orchestrator reads:
`config["settings"]["image_directory_name"]`.  `none` models the key being
absent from the settings table. -/
structure Config where
  imageDirectoryName : Option String

/-- Line 28 of `file_processer.py`:
`config["settings"].get("image_directory_name", "extracted_images") or "extracted_images"` —
the default covers a missing key, and Python `or` replaces a falsy (empty)
value by the default as well. -/
def effectiveImageDirName (cfg : Config) : String :=
  let v := cfg.imageDirectoryName.getD "extracted_images"
  if v = "" then "extracted_images" else v

/-- How the per-file dispatch in `process_all_files` classifies one listed
name.  `keyError` models the `KeyError` that the direct lookup
`config["settings"]["image_directory_name"]` on line 65 raises when the key
is absent (it is then caught by the per-file handler). -/
inductive Dispatch
  | toPdf
  | toTxt
  | toWord
  | warnUnsupported
  | skip
  | keyError
deriving DecidableEq, Repr

/-- The classification chain of lines 43–67 of `file_processer.py`:
`filename.lower().endswith('.pdf')`, then `.txt`, then `.docx`; otherwise the
file is skipped silently exactly when it equals the raw configured
image-directory name, and warned about otherwise. -/
def classifyFile (imageDirectoryName : Option String) (filename : String) : Dispatch :=
  if pyEndsWith (pyLower filename) ".pdf" then Dispatch.toPdf
  else if pyEndsWith (pyLower filename) ".txt" then Dispatch.toTxt
  else if pyEndsWith (pyLower filename) ".docx" then Dispatch.toWord
  else
    match imageDirectoryName with
    | none => Dispatch.keyError
    | some n => if n ≠ filename then Dispatch.warnUnsupported else Dispatch.skip

/-- The message carried by the `KeyError` of line 65 when the
`image_directory_name` key is missing. -/
def keyErrorMsg : String := "KeyError: image_directory_name"

/-- The environment a `process_all_files` run observes.  The three per-file
processors (`process_pdf`, `process_text`, `process_word_text`, defined in
modules external to the orchestrator) are oracles mapping their path
arguments to the documents they insert into the store before returning or
raising; `some e` in the second component is a raised exception with
message `e`, `none` is normal return. -/
structure PyEnv where
  dataFolder : String
  dataFolderExists : Bool
  cfg : Config
  listing : List String
  procPdf : String → String → List Doc × Option String
  procTxt : String → List Doc × Option String
  procWord : String → List Doc × Option String

/-- Observable outcome of one iteration of the per-file loop: the log lines
it emits, the documents its processor inserted, and the exception the
per-file `except` handler caught, if any. -/
structure PerFile where
  logs : List LogEntry
  docs : List Doc
  caught : Option String
deriving Repr

/-- The shape shared by the three supported-format branches of the loop
body (the Python source repeats it textually for PDF, TXT and Word): log
the progress line, run the processor, and either log completion or let the
per-file handler catch the exception and log it with the file name and the
cause. -/
def runProcessor (kind filename : String) (r : List Doc × Option String) : PerFile :=
  match r with
  | (docs, none) =>
      { logs := [⟨LogLevel.info, "Processing " ++ kind ++ " file: " ++ filename⟩,
                 ⟨LogLevel.info, "Processed " ++ kind ++ " file: " ++ filename⟩],
        docs := docs, caught := none }
  | (docs, some e) =>
      { logs := [⟨LogLevel.info, "Processing " ++ kind ++ " file: " ++ filename⟩,
                 ⟨LogLevel.error, "Error processing file " ++ filename ++ ": " ++ e⟩],
        docs := docs, caught := some e }

/-- The branch taken for each classification outcome in the loop body of
`process_all_files` (lines 42–71). -/
def processDispatch (env : PyEnv) (outputFolder filename : String) : Dispatch → PerFile
  | Dispatch.toPdf =>
      runProcessor "PDF" filename (env.procPdf (osPathJoin env.dataFolder filename) outputFolder)
  | Dispatch.toTxt =>
      runProcessor "TXT" filename (env.procTxt (osPathJoin env.dataFolder filename))
  | Dispatch.toWord =>
      runProcessor "Word" filename (env.procWord (osPathJoin env.dataFolder filename))
  | Dispatch.warnUnsupported =>
      { logs := [⟨LogLevel.warning, "Unsupported file type: " ++ filename⟩],
        docs := [], caught := none }
  | Dispatch.skip =>
      { logs := [], docs := [], caught := none }
  | Dispatch.keyError =>
      { logs := [⟨LogLevel.error, "Error processing file " ++ filename ++ ": " ++ keyErrorMsg⟩],
        docs := [], caught := some keyErrorMsg }

/-- One iteration of the loop body of `process_all_files` (lines 39–71),
including the surrounding `try`/`except Exception`: classify the name, then
take the matching branch. -/
def processOneFile (env : PyEnv) (outputFolder filename : String) : PerFile :=
  processDispatch env outputFolder filename
    (classifyFile env.cfg.imageDirectoryName filename)

/-- Observable outcome of a whole `process_all_files` call.  The Python
function always returns `None`; correspondingly this is a total record with
no error outcome — nothing propagates to the caller. -/
structure RunResult where
  logs : List LogEntry
  docs : List Doc
  madeOutputDir : Bool
deriving Repr

/-- The `output_folder` computed on lines 28–29. -/
def runOutputFolder (env : PyEnv) : String :=
  osPathJoin env.dataFolder (effectiveImageDirName env.cfg)

/-- `process_all_files` of `file_processer.py`: existence check, output
folder creation, empty-listing check, then the per-file loop with its
per-file failure boundary, then the final completion log. -/
def processAllFiles (env : PyEnv) : RunResult :=
  if env.dataFolderExists = false then
    { logs := [⟨LogLevel.error, "The specified data folder does not exist: " ++ env.dataFolder⟩],
      docs := [], madeOutputDir := false }
  else
    let outputFolder := runOutputFolder env
    if env.listing = [] then
      { logs := [⟨LogLevel.warning, "No files found in the specified data folder."⟩],
        docs := [], madeOutputDir := true }
    else
      let r := env.listing.foldl
        (fun acc filename =>
          (acc.1 ++ (processOneFile env outputFolder filename).logs,
           acc.2 ++ (processOneFile env outputFolder filename).docs))
        ([], [])
      { logs := r.1 ++ [⟨LogLevel.info, "All files have been processed."⟩],
        docs := r.2, madeOutputDir := true }

/-- The vector-store capability consumed by the insetters: `add_documents`
either succeeds (`none`) or raises an exception with message `some e`. -/
structure Store where
  addDocuments : List Doc → Option String

/-- An exception raised by an insetter: Python `ValueError` from the
precondition checks, or the generic `Exception` re-raised around a store
failure. -/
inductive PyErr
  | valueError (msg : String)
  | otherError (msg : String)
deriving DecidableEq, Repr

/-- Whether an insetter outcome is a validation (`ValueError`) failure. -/
def isValidationError : Option PyErr → Bool
  | some (PyErr.valueError _) => true
  | _ => false

/-- Observable outcome of one insetter call: the argument lists of the
`vector_db.add_documents` invocations it performed, in order, and the
exception it raised, if any (`none` = returned normally). -/
structure InsertResult where
  calls : List (List Doc)
  outcome : Option PyErr
deriving Repr

/-- The prefix of the message with which both insetters re-raise a store
failure (the wording is identical in `text_db_insetter` and
`image_db_insetter`). -/
def wrapPrefix : String :=
  "An error occurred while adding documents to the vector database: "

/-- The `try`/`except` block around `vector_db.add_documents`, textually
identical in both insetters: invoke the store once on the built document
list, and re-raise any store failure wrapped with `wrapPrefix`. -/
def storeCall (store : Store) (documents : List Doc) : InsertResult :=
  match store.addDocuments documents with
  | none => { calls := [documents], outcome := none }
  | some e => { calls := [documents], outcome := some (PyErr.otherError (wrapPrefix ++ e)) }

/-- `text_db_insetter` of `vector_database.py` (lines 41–71): validate the
list and the page number, build one `Document` per input string with
`Source`/`PageNo`/`Type` metadata, then delegate to `add_documents`,
wrapping any store failure. -/
def text_db_insetter (store : Store) (texts : List String) (pdf_name : String)
    (page_no : Int) : InsertResult :=
  if texts = [] then
    { calls := [], outcome := some (PyErr.valueError "The texts list cannot be empty.") }
  else if page_no < 1 then
    { calls := [], outcome := some (PyErr.valueError "Page number must be a positive integer.") }
  else
    storeCall store (texts.map (fun text =>
      { page_content := text,
        metadata := { source := osPathBasename pdf_name, pageNo := page_no,
                      docType := "Text", imagePath := none } }))

/-- `image_db_insetter` of `vector_database.py` (lines 7–39): like
`text_db_insetter` but with `Type = "Image"` and an `ImagePath` metadata
entry. -/
def image_db_insetter (store : Store) (image_summaries_texts : List String)
    (image_path : String) (pdf_name : String) (page_no : Int) : InsertResult :=
  if image_summaries_texts = [] then
    { calls := [], outcome := some (PyErr.valueError "The image summaries list cannot be empty.") }
  else if page_no < 1 then
    { calls := [], outcome := some (PyErr.valueError "Page number must be a positive integer.") }
  else
    storeCall store (image_summaries_texts.map (fun text =>
      { page_content := text,
        metadata := { source := osPathBasename pdf_name, pageNo := page_no,
                      docType := "Image", imagePath := some image_path } }))

/-- Modelled from the spec: the Chunker's recursion step.  The chunker used
by the pipeline is langchain's `RecursiveCharacterTextSplitter`,
instantiated in `main.py` with a character-count length function; its
implementation is external to this repository, so the splitting contract of
spec §4.3 is modelled directly: fixed-size character windows, adjacent
windows overlapping by `chunkOverlap` characters. -/
def splitGo (chunkSize chunkOverlap : Nat) (h : chunkOverlap < chunkSize)
    (cs : List Char) : List (List Char) :=
  if _hle : cs.length ≤ chunkSize then [cs]
  else
    cs.take chunkSize :: splitGo chunkSize chunkOverlap h (cs.drop (chunkSize - chunkOverlap))
termination_by cs.length
decreasing_by
  simp only [List.length_drop]
  omega

/-- Modelled from the spec: `split(text, chunkSize, chunkOverlap)` of spec
§4.3.  Invalid configuration (`chunkOverlap ≥ chunkSize`, or a zero chunk
size) fails fast with a configuration error; otherwise the text is split
deterministically into overlapping character windows. -/
def split (text : String) (chunkSize chunkOverlap : Nat) : Except String (List String) :=
  if h : chunkSize ≤ chunkOverlap then
    Except.error "ConfigurationError: chunk overlap must be smaller than chunk size"
  else if text = "" then Except.ok []
  else
    Except.ok ((splitGo chunkSize chunkOverlap (by omega) text.toList).map List.asString)

/-- A store whose `add_documents` always succeeds. -/
def okStore : Store := { addDocuments := fun _ => none }

/-- A store whose `add_documents` always raises, with message `"boom"`. -/
def failStore : Store := { addDocuments := fun _ => some "boom" }

/-- A concrete document used by the demo environment. -/
def demoDoc : Doc :=
  { page_content := "hello",
    metadata := { source := "notes.txt", pageNo := 1, docType := "Text", imagePath := none } }

/-- A concrete environment with one PDF whose processing raises and one TXT
file that succeeds. -/
def demoEnv : PyEnv :=
  { dataFolder := "data", dataFolderExists := true,
    cfg := { imageDirectoryName := some "extracted_images" },
    listing := ["bad.pdf", "notes.txt"],
    procPdf := fun _ _ => ([], some "boom"),
    procTxt := fun _ => ([demoDoc], none),
    procWord := fun _ => ([], none) }

/-- A concrete environment whose data folder exists but lists no entries. -/
def emptyEnv : PyEnv :=
  { demoEnv with listing := [] }

/-- A concrete environment whose data folder does not exist. -/
def missingEnv : PyEnv :=
  { demoEnv with dataFolderExists := false }

/-- Folding the per-file loop body over a listing accumulates exactly the
concatenation of the per-file logs and documents. -/
theorem foldl_logs_docs (g : String → PerFile) (l : List String)
    (a : List LogEntry) (b : List Doc) :
    l.foldl (fun acc f => (acc.1 ++ (g f).logs, acc.2 ++ (g f).docs)) (a, b)
      = (a ++ (l.map (fun f => (g f).logs)).flatten,
         b ++ (l.map (fun f => (g f).docs)).flatten) := by
  induction l generalizing a b with
  | nil => simp
  | cons x xs ih => simp [ih]

/-- If a supported-format branch catches an exception, its log stream
contains an error entry naming the file and the cause. -/
theorem runProcessor_caught (kind filename e : String) (r : List Doc × Option String)
    (h : (runProcessor kind filename r).caught = some e) :
    LogEntry.mk LogLevel.error ("Error processing file " ++ filename ++ ": " ++ e) ∈
      (runProcessor kind filename r).logs := by
  rcases r with ⟨ds, err⟩
  cases err with
  | none => simp [runProcessor] at h
  | some e2 =>
    simp only [runProcessor, Option.some.injEq] at h
    subst h
    simp [runProcessor]

/-- Whatever branch the classification selects, a caught exception yields
an error log entry naming the file and the cause. -/
theorem dispatch_caught_logged (env : PyEnv) (outF f e : String) (d : Dispatch)
    (h : (processDispatch env outF f d).caught = some e) :
    LogEntry.mk LogLevel.error ("Error processing file " ++ f ++ ": " ++ e) ∈
      (processDispatch env outF f d).logs := by
  cases d
  case toPdf =>
    simp only [processDispatch] at h ⊢
    exact runProcessor_caught _ _ _ _ h
  case toTxt =>
    simp only [processDispatch] at h ⊢
    exact runProcessor_caught _ _ _ _ h
  case toWord =>
    simp only [processDispatch] at h ⊢
    exact runProcessor_caught _ _ _ _ h
  case warnUnsupported => simp [processDispatch] at h
  case skip => simp [processDispatch] at h
  case keyError =>
    simp only [processDispatch, Option.some.injEq] at h
    subst h
    simp [processDispatch]

/-- If the per-file handler catches an exception, the per-file log stream
contains an error entry naming the file and the cause. -/
theorem caught_is_logged (env : PyEnv) (outF f e : String)
    (h : (processOneFile env outF f).caught = some e) :
    LogEntry.mk LogLevel.error ("Error processing file " ++ f ++ ": " ++ e) ∈
      (processOneFile env outF f).logs :=
  dispatch_caught_logged env outF f e _ h

/-- C7: if the input directory does not exist, `process_all_files` logs and
reports the missing-directory error and returns gracefully: no file is
processed, no output directory is created and nothing is inserted into the
store.  (The Python function returns `None` rather than raising, so the
failure is non-fatal to the caller.) -/
theorem process_all_files_missing_folder (env : PyEnv)
    (hex : env.dataFolderExists = false) :
    processAllFiles env =
      { logs := [⟨LogLevel.error,
                  "The specified data folder does not exist: " ++ env.dataFolder⟩],
        docs := [], madeOutputDir := false } := by
  simp [processAllFiles, hex]

/-- Witness for C7 at a concrete environment whose folder is missing. -/
theorem process_all_files_missing_folder_spot :
    missingEnv.dataFolderExists = false
  ∧ processAllFiles missingEnv =
      { logs := [⟨LogLevel.error,
                  "The specified data folder does not exist: " ++ missingEnv.dataFolder⟩],
        docs := [], madeOutputDir := false } :=
  ⟨rfl, process_all_files_missing_folder missingEnv rfl⟩

/-- C6: on an existing but empty input directory, `process_all_files` takes
the empty-listing branch: it emits exactly the no-files warning, performs
zero store insertions, and returns without any error entry. -/
theorem process_all_files_empty_listing (env : PyEnv)
    (hex : env.dataFolderExists = true) (hempty : env.listing = []) :
    processAllFiles env =
      { logs := [⟨LogLevel.warning, "No files found in the specified data folder."⟩],
        docs := [], madeOutputDir := true } := by
  simp [processAllFiles, hex, hempty]

/-- Witness for C6 at a concrete empty environment. -/
theorem process_all_files_empty_listing_spot :
    emptyEnv.dataFolderExists = true ∧ emptyEnv.listing = []
  ∧ processAllFiles emptyEnv =
      { logs := [⟨LogLevel.warning, "No files found in the specified data folder."⟩],
        docs := [], madeOutputDir := true } :=
  ⟨rfl, rfl, process_all_files_empty_listing emptyEnv rfl rfl⟩

/-- C1: every exception caught while processing one file is turned into an
error log naming that file and the cause, and the run's logs and documents
are exactly the concatenation of every listed file's own contribution — so
no per-file exception escapes `process_all_files` (which is total and
always returns a `RunResult`) or prevents the remaining files from being
processed. -/
theorem process_all_files_isolates_failures (env : PyEnv)
    (hex : env.dataFolderExists = true) (hne : env.listing ≠ [])
    (f : String) (hf : f ∈ env.listing) (e : String)
    (hcaught : (processOneFile env (runOutputFolder env) f).caught = some e) :
    LogEntry.mk LogLevel.error ("Error processing file " ++ f ++ ": " ++ e) ∈
        (processAllFiles env).logs
  ∧ (processAllFiles env).logs =
      (env.listing.map (fun g => (processOneFile env (runOutputFolder env) g).logs)).flatten
        ++ [⟨LogLevel.info, "All files have been processed."⟩]
  ∧ (processAllFiles env).docs =
      (env.listing.map (fun g => (processOneFile env (runOutputFolder env) g).docs)).flatten := by
  have hrun : processAllFiles env =
      { logs := (env.listing.map
            (fun g => (processOneFile env (runOutputFolder env) g).logs)).flatten
          ++ [⟨LogLevel.info, "All files have been processed."⟩],
        docs := (env.listing.map
            (fun g => (processOneFile env (runOutputFolder env) g).docs)).flatten,
        madeOutputDir := true } := by
    simp [processAllFiles, hex, hne,
      foldl_logs_docs (fun g => processOneFile env (runOutputFolder env) g)]
  refine ⟨?_, by rw [hrun], by rw [hrun]⟩
  rw [hrun]
  apply List.mem_append_left
  rw [List.mem_flatten]
  exact ⟨(processOneFile env (runOutputFolder env) f).logs,
    List.mem_map_of_mem _ hf, caught_is_logged env _ f e hcaught⟩

/-- Witness for C1: in `demoEnv` the PDF processor raises `"boom"` on
`"bad.pdf"`; the run logs the error with the file name and cause and still
contains every listed file's contribution. -/
theorem process_all_files_isolates_spot :
    demoEnv.dataFolderExists = true
  ∧ demoEnv.listing ≠ []
  ∧ "bad.pdf" ∈ demoEnv.listing
  ∧ (processOneFile demoEnv (runOutputFolder demoEnv) "bad.pdf").caught = some "boom"
  ∧ (LogEntry.mk LogLevel.error ("Error processing file " ++ "bad.pdf" ++ ": " ++ "boom") ∈
        (processAllFiles demoEnv).logs
    ∧ (processAllFiles demoEnv).logs =
        (demoEnv.listing.map
          (fun g => (processOneFile demoEnv (runOutputFolder demoEnv) g).logs)).flatten
          ++ [⟨LogLevel.info, "All files have been processed."⟩]
    ∧ (processAllFiles demoEnv).docs =
        (demoEnv.listing.map
          (fun g => (processOneFile demoEnv (runOutputFolder demoEnv) g).docs)).flatten) :=
  ⟨rfl, by decide, by decide, by decide,
   process_all_files_isolates_failures demoEnv rfl (by decide) "bad.pdf" (by decide) "boom"
     (by decide)⟩

/-- C5: `process_all_files` classifies each listed entry by extension,
case-insensitively: a name ending in `.pdf` goes to the PDF extractor,
`.txt` to the text extractor, `.docx` to the word extractor; any other
name produces an unsupported-file warning, except a name exactly equal to
the configured image-output subdirectory name, which is silently skipped
with no warning and no other effect. -/
theorem process_all_files_classifies_by_extension (env : PyEnv) (n filename outF : String)
    (hconf : env.cfg.imageDirectoryName = some n) :
    (pyEndsWith (pyLower filename) ".pdf" = true →
        classifyFile env.cfg.imageDirectoryName filename = Dispatch.toPdf
      ∧ (processOneFile env outF filename).docs =
          (env.procPdf (osPathJoin env.dataFolder filename) outF).1)
  ∧ (pyEndsWith (pyLower filename) ".pdf" = false →
     pyEndsWith (pyLower filename) ".txt" = true →
        classifyFile env.cfg.imageDirectoryName filename = Dispatch.toTxt
      ∧ (processOneFile env outF filename).docs =
          (env.procTxt (osPathJoin env.dataFolder filename)).1)
  ∧ (pyEndsWith (pyLower filename) ".pdf" = false →
     pyEndsWith (pyLower filename) ".txt" = false →
     pyEndsWith (pyLower filename) ".docx" = true →
        classifyFile env.cfg.imageDirectoryName filename = Dispatch.toWord
      ∧ (processOneFile env outF filename).docs =
          (env.procWord (osPathJoin env.dataFolder filename)).1)
  ∧ (pyEndsWith (pyLower filename) ".pdf" = false →
     pyEndsWith (pyLower filename) ".txt" = false →
     pyEndsWith (pyLower filename) ".docx" = false →
     filename ≠ n →
        classifyFile env.cfg.imageDirectoryName filename = Dispatch.warnUnsupported
      ∧ processOneFile env outF filename =
          { logs := [⟨LogLevel.warning, "Unsupported file type: " ++ filename⟩],
            docs := [], caught := none })
  ∧ (pyEndsWith (pyLower filename) ".pdf" = false →
     pyEndsWith (pyLower filename) ".txt" = false →
     pyEndsWith (pyLower filename) ".docx" = false →
     filename = n →
        classifyFile env.cfg.imageDirectoryName filename = Dispatch.skip
      ∧ processOneFile env outF filename = { logs := [], docs := [], caught := none }) := by
  refine ⟨?_, ?_, ?_, ?_, ?_⟩
  · intro h1
    have hcl : classifyFile env.cfg.imageDirectoryName filename = Dispatch.toPdf := by
      simp [classifyFile, h1]
    refine ⟨hcl, ?_⟩
    unfold processOneFile
    rw [hcl]
    rcases hp : env.procPdf (osPathJoin env.dataFolder filename) outF with ⟨ds, err⟩
    cases err <;> simp [processDispatch, runProcessor, hp]
  · intro h1 h2
    have hcl : classifyFile env.cfg.imageDirectoryName filename = Dispatch.toTxt := by
      simp [classifyFile, h1, h2]
    refine ⟨hcl, ?_⟩
    unfold processOneFile
    rw [hcl]
    rcases hp : env.procTxt (osPathJoin env.dataFolder filename) with ⟨ds, err⟩
    cases err <;> simp [processDispatch, runProcessor, hp]
  · intro h1 h2 h3
    have hcl : classifyFile env.cfg.imageDirectoryName filename = Dispatch.toWord := by
      simp [classifyFile, h1, h2, h3]
    refine ⟨hcl, ?_⟩
    unfold processOneFile
    rw [hcl]
    rcases hp : env.procWord (osPathJoin env.dataFolder filename) with ⟨ds, err⟩
    cases err <;> simp [processDispatch, runProcessor, hp]
  · intro h1 h2 h3 h4
    have hcl : classifyFile env.cfg.imageDirectoryName filename = Dispatch.warnUnsupported := by
      simp [classifyFile, h1, h2, h3, hconf, Ne.symm h4]
    refine ⟨hcl, ?_⟩
    unfold processOneFile
    rw [hcl]
    rfl
  · intro h1 h2 h3 h4
    have hcl : classifyFile env.cfg.imageDirectoryName filename = Dispatch.skip := by
      subst h4
      simp [classifyFile, h1, h2, h3, hconf]
    refine ⟨hcl, ?_⟩
    unfold processOneFile
    rw [hcl]
    rfl

/-- Witness for C5: an upper-case `.PDF` name is classified to the PDF
extractor; an `.xyz` name is warned about; a name equal to the configured
image-directory name is skipped with no log at all. -/
theorem process_all_files_classify_spot :
    demoEnv.cfg.imageDirectoryName = some "extracted_images"
  ∧ classifyFile demoEnv.cfg.imageDirectoryName "Report.PDF" = Dispatch.toPdf
  ∧ classifyFile demoEnv.cfg.imageDirectoryName "weird.xyz" = Dispatch.warnUnsupported
  ∧ processOneFile demoEnv (runOutputFolder demoEnv) "extracted_images" =
      { logs := [], docs := [], caught := none } := by
  refine ⟨rfl, ?_, ?_, ?_⟩
  · exact ((process_all_files_classifies_by_extension demoEnv "extracted_images" "Report.PDF"
      (runOutputFolder demoEnv) rfl).1 (by decide)).1
  · exact ((process_all_files_classifies_by_extension demoEnv "extracted_images" "weird.xyz"
      (runOutputFolder demoEnv) rfl).2.2.2.1 (by decide) (by decide) (by decide) (by decide)).1
  · exact ((process_all_files_classifies_by_extension demoEnv "extracted_images"
      "extracted_images" (runOutputFolder demoEnv) rfl).2.2.2.2
      (by decide) (by decide) (by decide) rfl).2

/-- The store-delegation block never produces a validation error: its
outcome is either success or the wrapped store failure. -/
theorem storeCall_not_validation (store : Store) (ds : List Doc) :
    isValidationError (storeCall store ds).outcome = false := by
  unfold storeCall
  cases store.addDocuments ds <;> simp [isValidationError]

/-- The store-delegation block invokes `add_documents` exactly once, on the
built document list. -/
theorem storeCall_calls (store : Store) (ds : List Doc) :
    (storeCall store ds).calls = [ds] := by
  unfold storeCall
  cases store.addDocuments ds <;> rfl

/-- C2: for every store, source name and page number, `text_db_insetter`
and `image_db_insetter` raise a `ValueError` exactly when the content list
is empty or the page number is below 1; with a non-empty list and a page
number of at least 1 no validation error is raised. -/
theorem insetters_validate_inputs (store : Store) (texts : List String)
    (image_path pdf_name : String) (page_no : Int) :
    (isValidationError (text_db_insetter store texts pdf_name page_no).outcome = true
      ↔ (texts = [] ∨ page_no < 1))
  ∧ (isValidationError (image_db_insetter store texts image_path pdf_name page_no).outcome = true
      ↔ (texts = [] ∨ page_no < 1)) := by
  by_cases h1 : texts = []
  · simp [text_db_insetter, image_db_insetter, h1, isValidationError]
  · by_cases h2 : page_no < 1
    · simp [text_db_insetter, image_db_insetter, h1, h2, isValidationError]
    · simp [text_db_insetter, image_db_insetter, h1, h2, storeCall_not_validation]

/-- C3: with valid inputs, each insetter builds exactly one document per
input string, in input order, with that string as content, `Source` equal
to the base name of the given source name, the given `PageNo`, `Type`
`"Text"` or `"Image"` respectively, and `ImagePath` attached only by
`image_db_insetter`. -/
theorem insetters_build_documents (store : Store) (texts : List String)
    (image_path pdf_name : String) (page_no : Int)
    (hne : texts ≠ []) (hpg : 1 ≤ page_no) :
    (text_db_insetter store texts pdf_name page_no).calls =
      [texts.map (fun t =>
        { page_content := t,
          metadata := { source := osPathBasename pdf_name, pageNo := page_no,
                        docType := "Text", imagePath := none } })]
  ∧ (image_db_insetter store texts image_path pdf_name page_no).calls =
      [texts.map (fun t =>
        { page_content := t,
          metadata := { source := osPathBasename pdf_name, pageNo := page_no,
                        docType := "Image", imagePath := some image_path } })] := by
  have h2 : ¬ page_no < 1 := by omega
  simp [text_db_insetter, image_db_insetter, hne, h2, storeCall_calls]

/-- Witness for C3 on a concrete two-element batch with a directory-
qualified source name. -/
theorem insetters_build_documents_spot :
    (["alpha", "beta"] : List String) ≠ []
  ∧ (1 : Int) ≤ 2
  ∧ ((text_db_insetter okStore ["alpha", "beta"] "dir/doc.pdf" 2).calls =
      [(["alpha", "beta"] : List String).map (fun t =>
        { page_content := t,
          metadata := { source := osPathBasename "dir/doc.pdf", pageNo := 2,
                        docType := "Text", imagePath := none } })]
    ∧ (image_db_insetter okStore ["alpha", "beta"] "img.png" "dir/doc.pdf" 2).calls =
      [(["alpha", "beta"] : List String).map (fun t =>
        { page_content := t,
          metadata := { source := osPathBasename "dir/doc.pdf", pageNo := 2,
                        docType := "Image", imagePath := some "img.png" } })]) :=
  ⟨by decide, by decide,
   insetters_build_documents okStore ["alpha", "beta"] "img.png" "dir/doc.pdf" 2
     (by decide) (by decide)⟩

/-- C10: whenever a validation error is raised (empty content list or page
number below 1), neither insetter ever invokes `vector_db.add_documents`,
so the store is untouched on a validation failure. -/
theorem insetters_validation_precedes_store (store : Store) (texts : List String)
    (image_path pdf_name : String) (page_no : Int)
    (hbad : texts = [] ∨ page_no < 1) :
    (text_db_insetter store texts pdf_name page_no).calls = []
  ∧ (image_db_insetter store texts image_path pdf_name page_no).calls = []
  ∧ isValidationError (text_db_insetter store texts pdf_name page_no).outcome = true
  ∧ isValidationError (image_db_insetter store texts image_path pdf_name page_no).outcome = true := by
  rcases hbad with h | h
  · simp [text_db_insetter, image_db_insetter, h, isValidationError]
  · by_cases h1 : texts = [] <;>
      simp [text_db_insetter, image_db_insetter, h1, h, isValidationError]

/-- Witness for C10 at a negative page number. -/
theorem insetters_validation_precedes_store_spot :
    ((["alpha"] : List String) = [] ∨ (0 : Int) < 1)
  ∧ ((text_db_insetter failStore ["alpha"] "doc.pdf" 0).calls = []
    ∧ (image_db_insetter failStore ["alpha"] "img.png" "doc.pdf" 0).calls = []
    ∧ isValidationError (text_db_insetter failStore ["alpha"] "doc.pdf" 0).outcome = true
    ∧ isValidationError (image_db_insetter failStore ["alpha"] "img.png" "doc.pdf" 0).outcome
        = true) :=
  ⟨Or.inr (by decide),
   insetters_validation_precedes_store failStore ["alpha"] "img.png" "doc.pdf" 0
     (Or.inr (by decide))⟩

/-- Counterexample for C8: on a store failure with cause `"boom"`, the two
insetters raise the *same* wrapped error — the message names neither text
nor image insertion, so the error does not identify which operation
failed. -/
theorem insetters_wrap_identically :
    (text_db_insetter failStore ["chunk"] "doc.pdf" 1).outcome =
      (image_db_insetter failStore ["summary"] "img.png" "doc.pdf" 1).outcome
  ∧ (text_db_insetter failStore ["chunk"] "doc.pdf" 1).outcome =
      some (PyErr.otherError (wrapPrefix ++ "boom")) := by
  constructor <;> rfl

/-- C8 (amended): each insetter wraps a store failure into a descriptive
error whose message carries the underlying cause — it is not swallowed —
but the wrapping message is word-for-word identical in both insetters, so
it does not say whether text or image insertion failed. -/
theorem insetters_wrap_store_failures (store : Store) (texts : List String)
    (image_path pdf_name : String) (page_no : Int) (e : String)
    (hne : texts ≠ []) (hpg : 1 ≤ page_no)
    (hfail : ∀ ds, store.addDocuments ds = some e) :
    (text_db_insetter store texts pdf_name page_no).outcome =
      some (PyErr.otherError (wrapPrefix ++ e))
  ∧ (image_db_insetter store texts image_path pdf_name page_no).outcome =
      some (PyErr.otherError (wrapPrefix ++ e)) := by
  have h2 : ¬ page_no < 1 := by omega
  simp [text_db_insetter, image_db_insetter, hne, h2, storeCall, hfail]

/-- Witness for the amended C8 on the always-failing store. -/
theorem insetters_wrap_store_failures_spot :
    (["chunk"] : List String) ≠ []
  ∧ (1 : Int) ≤ 1
  ∧ (∀ ds, failStore.addDocuments ds = some "boom")
  ∧ ((text_db_insetter failStore ["chunk"] "doc.pdf" 1).outcome =
      some (PyErr.otherError (wrapPrefix ++ "boom"))
    ∧ (image_db_insetter failStore ["chunk"] "img.png" "doc.pdf" 1).outcome =
      some (PyErr.otherError (wrapPrefix ++ "boom"))) :=
  ⟨by decide, by decide, fun _ => rfl,
   insetters_wrap_store_failures failStore ["chunk"] "img.png" "doc.pdf" 1 "boom"
     (by decide) (by decide) (fun _ => rfl)⟩

/-- Counterexample for C4: the insetters do not reject empty content
strings — `text_db_insetter` passes a document with empty `page_content`
to `add_documents` when the (non-empty) input list contains an empty
string. -/
theorem insetter_empty_content_reaches_store :
    (text_db_insetter okStore [""] "doc.pdf" 1).calls =
      [[{ page_content := "",
          metadata := { source := "doc.pdf", pageNo := 1,
                        docType := "Text", imagePath := none } }]] := by
  rfl

/-- C4 (amended): every document either insetter passes to the store's
`add_documents` has `PageNo ≥ 1`, `Type` exactly `"Text"` or `"Image"`,
and `ImagePath` present iff `Type = "Image"`; its content equals one of
the input strings, so it is non-empty only when the caller passes
non-empty strings — the insetters themselves do not reject empty content
strings. -/
theorem insetter_documents_invariant (store : Store) (texts : List String)
    (image_path pdf_name : String) (page_no : Int) (d : Doc)
    (hmem : d ∈ ((text_db_insetter store texts pdf_name page_no).calls).flatten
          ∨ d ∈ ((image_db_insetter store texts image_path pdf_name page_no).calls).flatten) :
    1 ≤ d.metadata.pageNo
  ∧ (d.metadata.docType = "Text" ∨ d.metadata.docType = "Image")
  ∧ (d.metadata.imagePath.isSome = true ↔ d.metadata.docType = "Image")
  ∧ d.page_content ∈ texts := by
  by_cases h1 : texts = []
  · simp [text_db_insetter, image_db_insetter, h1] at hmem
  · by_cases h2 : page_no < 1
    · simp [text_db_insetter, image_db_insetter, h1, h2] at hmem
    · rcases hmem with hm | hm
      · simp only [text_db_insetter, if_neg h1, if_neg h2, storeCall_calls,
          List.flatten, List.append_nil, List.mem_map] at hm
        obtain ⟨t, ht, rfl⟩ := hm
        refine ⟨?_, Or.inl rfl, ?_, ht⟩
        · show (1 : Int) ≤ page_no
          omega
        · show (none : Option String).isSome = true ↔ ("Text" : String) = "Image"
          decide
      · simp only [image_db_insetter, if_neg h1, if_neg h2, storeCall_calls,
          List.flatten, List.append_nil, List.mem_map] at hm
        obtain ⟨t, ht, rfl⟩ := hm
        refine ⟨?_, Or.inr rfl, ?_, ht⟩
        · show (1 : Int) ≤ page_no
          omega
        · show (some image_path).isSome = true ↔ ("Image" : String) = "Image"
          simp

/-- Witness for the amended C4 on a concrete image document. -/
theorem insetter_documents_invariant_spot :
    (({ page_content := "summary",
        metadata := { source := "doc.pdf", pageNo := 3,
                      docType := "Image", imagePath := some "img.png" } } : Doc) ∈
        ((text_db_insetter okStore ["summary"] "dir/doc.pdf" 3).calls).flatten
      ∨ ({ page_content := "summary",
           metadata := { source := "doc.pdf", pageNo := 3,
                         docType := "Image", imagePath := some "img.png" } } : Doc) ∈
        ((image_db_insetter okStore ["summary"] "img.png" "dir/doc.pdf" 3).calls).flatten)
  ∧ (1 ≤ (({ page_content := "summary",
             metadata := { source := "doc.pdf", pageNo := 3,
                           docType := "Image", imagePath := some "img.png" } } : Doc)).metadata.pageNo
    ∧ ((({ page_content := "summary",
           metadata := { source := "doc.pdf", pageNo := 3,
                         docType := "Image", imagePath := some "img.png" } } : Doc)).metadata.docType = "Text"
       ∨ (({ page_content := "summary",
             metadata := { source := "doc.pdf", pageNo := 3,
                           docType := "Image", imagePath := some "img.png" } } : Doc)).metadata.docType = "Image")
    ∧ ((({ page_content := "summary",
           metadata := { source := "doc.pdf", pageNo := 3,
                         docType := "Image", imagePath := some "img.png" } } : Doc)).metadata.imagePath.isSome = true
        ↔ (({ page_content := "summary",
              metadata := { source := "doc.pdf", pageNo := 3,
                            docType := "Image", imagePath := some "img.png" } } : Doc)).metadata.docType = "Image")
    ∧ (({ page_content := "summary",
          metadata := { source := "doc.pdf", pageNo := 3,
                        docType := "Image", imagePath := some "img.png" } } : Doc)).page_content
        ∈ (["summary"] : List String)) :=
  ⟨Or.inr (by decide),
   insetter_documents_invariant okStore ["summary"] "img.png" "dir/doc.pdf" 3 _
     (Or.inr (by decide))⟩

/-- C9: the Chunker's split is deterministic: two calls with the same text
and the same valid `(chunkSize, chunkOverlap)` configuration yield the same
ordered sequence of chunks.  The model is a pure function of its three
inputs, with no source of randomness, so equal inputs give equal output. -/
theorem split_deterministic (T1 T2 : String) (c1 c2 o1 o2 : Nat)
    (hc : 0 < c1) (ho : o1 < c1) (hT : T1 = T2) (hc2 : c1 = c2) (ho2 : o1 = o2) :
    split T1 c1 o1 = split T2 c2 o2 := by
  subst hT
  subst hc2
  subst ho2
  rfl

/-- Witness for C9 at a concrete text and configuration. -/
theorem split_deterministic_spot :
    0 < 5 ∧ 2 < 5
  ∧ ("overlapping chunk text" : String) = "overlapping chunk text"
  ∧ (5 : Nat) = 5 ∧ (2 : Nat) = 2
  ∧ split "overlapping chunk text" 5 2 = split "overlapping chunk text" 5 2 :=
  ⟨by decide, by decide, rfl, rfl, rfl,
   split_deterministic "overlapping chunk text" "overlapping chunk text" 5 5 2 2
     (by decide) (by decide) rfl rfl rfl⟩
